import Mathlib

/-!
# Verification of the Multi-Launchpad token-sale program

A shallow embedding of `src/Launchpad.rs` (a Solana/Anchor program with two
instructions, `initialize_project` and `purchase_tokens`) together with proofs
of the specification's claims about it.

Modelling conventions:
* Rust `u64` fields are embedded as `Nat` together with the explicit modulus
  `U64_MOD = 2^64`; `checked_add` / `checked_mul` return `none` exactly when
  the mathematical result does not fit in a `u64`.
* Rust `i64` timestamps are embedded as `Int` (the program only compares
  timestamps, it never does arithmetic on them, so no overflow is reachable).
* `Pubkey` is an abstract identity, embedded as `Nat`.
* A failing Anchor instruction aborts the whole transaction: every effect is
  rolled back.  The embedding therefore returns `Except TxFailure _`:
  `.ok` carries the complete post-state, `.error` means the pre-state is kept
  unchanged (made explicit by `purchase_step`).
* `.unwrap()` on a `None` checked-arithmetic result panics, which aborts the
  transaction with a fatal error distinct from the declared `LaunchpadError`
  codes; this is the `TxFailure.overflowPanic` constructor.
* The two transfer collaborators (the System program's lamport transfer and
  the SPL token transfer) are external to the source; they are modelled from
  the spec's interface contract (§6): an exact-amount transfer that fails with
  an insufficient-balance error and otherwise moves exactly the requested
  amount.
-/

namespace Launchpad

/-- A Solana public key, modelled abstractly. -/
abbrev Pubkey := Nat

/-- The `u64` modulus: `u64` values are the naturals `< U64_MOD`. -/
def U64_MOD : Nat := 2 ^ 64

/-- Rust `u64::checked_add`: `some (a + b)` when the sum fits in a `u64`,
`none` on overflow. -/
def checked_add (a b : Nat) : Option Nat :=
  if a + b < U64_MOD then some (a + b) else none

/-- Rust `u64::checked_mul`: `some (a * b)` when the product fits in a `u64`,
`none` on overflow. -/
def checked_mul (a b : Nat) : Option Nat :=
  if a * b < U64_MOD then some (a * b) else none

/-- The error codes of the `#[error_code] enum LaunchpadError` in
`src/Launchpad.rs`. -/
inductive LaunchpadError where
  | SaleInactive
  | BelowMinimum
  | AboveMaximum
  | InsufficientTokens
  | InvalidTimeRange
  | InvalidStartTime
deriving Repr, DecidableEq

/-- How a transaction can abort: with a declared `LaunchpadError` (a failed
`require!`), with a panic from `.unwrap()` on an overflowed checked operation,
or with an error propagated from one of the two transfer CPIs. -/
inductive TxFailure where
  | err (e : LaunchpadError)
  | overflowPanic
  | transferFailed
deriving Repr, DecidableEq

/-- The `ProjectInfo` account of `src/Launchpad.rs` (lines 11–31). -/
structure ProjectInfo where
  admin : Pubkey
  token_mint : Pubkey
  start_time : Int
  end_time : Int
  token_price : Nat
  total_tokens : Nat
  tokens_sold : Nat
  min_purchase : Nat
  max_purchase : Nat
deriving Repr, DecidableEq

/-- The accounts of the `InitializeProject` context that the instruction
reads: the signing admin and the token mint.  `admin` is the key of the
`Signer` account, so it is the authenticated caller identity, not an
instruction argument. -/
structure InitializeAccounts where
  admin : Pubkey
  token_mint : Pubkey
deriving Repr, DecidableEq

/-- `initialize_project` (lines 34–61 of `src/Launchpad.rs`).  `now` is the
value of `Clock::get()?.unix_timestamp` observed during the call.  On success
it returns the freshly written `ProjectInfo`; on failure nothing is written. -/
def initialize_project (accs : InitializeAccounts) (now : Int)
    (start_time end_time : Int)
    (token_price total_tokens min_purchase max_purchase : Nat) :
    Except TxFailure ProjectInfo :=
  if ¬ (end_time > start_time) then
    .error (.err .InvalidTimeRange)
  else if ¬ (start_time > now) then
    .error (.err .InvalidStartTime)
  else
    .ok { admin := accs.admin
          token_mint := accs.token_mint
          start_time := start_time
          end_time := end_time
          token_price := token_price
          total_tokens := total_tokens
          tokens_sold := 0
          min_purchase := min_purchase
          max_purchase := max_purchase }

/-- The mutable account state a `purchase_tokens` call touches: the project
record, the lamport balances of the buyer and of the project vault, and the
token balances of the token vault and of the buyer's token account. -/
structure PurchaseAccounts where
  project_info : ProjectInfo
  buyer_lamports : Nat
  project_vault_lamports : Nat
  token_vault_tokens : Nat
  buyer_token_tokens : Nat
deriving Repr, DecidableEq

/-- Modelled from the spec: the System-program lamport transfer invoked at
lines 90–101 of `src/Launchpad.rs` is external code; per the spec (§6) it is
an exact-amount transfer with an insufficient-balance failure mode.  Returns
the updated `(source, destination)` balances. -/
def system_transfer (source dest amt : Nat) : Except TxFailure (Nat × Nat) :=
  if amt ≤ source then .ok (source - amt, dest + amt) else .error .transferFailed

/-- Modelled from the spec: the SPL `token::transfer` CPI invoked at lines
104–114 of `src/Launchpad.rs` is external code; per the spec (§6) it is an
exact-amount transfer with an insufficient-balance failure mode.  Returns the
updated `(source, destination)` balances. -/
def spl_transfer (source dest amt : Nat) : Except TxFailure (Nat × Nat) :=
  if amt ≤ source then .ok (source - amt, dest + amt) else .error .transferFailed

/-- The `require!(cond, err)` macro: early-returns `Err(err)` when the
condition is false, otherwise continues. -/
def require (cond : Prop) [Decidable cond] (e : LaunchpadError) :
    Except TxFailure Unit :=
  if cond then .ok () else .error (.err e)

/-- Rust `Option::unwrap()`: yields the value, or panics — which aborts the
whole Solana transaction with a fatal (non-`LaunchpadError`) failure. -/
def unwrap {α : Type} (o : Option α) : Except TxFailure α :=
  match o with
  | some a => .ok a
  | none => .error .overflowPanic

/-- `purchase_tokens` (lines 64–120 of `src/Launchpad.rs`).  `now` is
`Clock::get()?.unix_timestamp`.  On `.ok` the returned `PurchaseAccounts` is
the complete post-state; on `.error` the transaction aborts and no account is
modified. -/
def purchase_tokens (now : Int) (amount : Nat) (accs : PurchaseAccounts) :
    Except TxFailure PurchaseAccounts := do
  let p := accs.project_info
  -- require!(clock.unix_timestamp >= start_time && clock.unix_timestamp <= end_time)
  require (now ≥ p.start_time ∧ now ≤ p.end_time) .SaleInactive
  -- require!(amount >= min_purchase)
  require (amount ≥ p.min_purchase) .BelowMinimum
  -- require!(amount <= max_purchase)
  require (amount ≤ p.max_purchase) .AboveMaximum
  -- require!(tokens_sold.checked_add(amount).unwrap() <= total_tokens)
  let sold_plus ← unwrap (checked_add p.tokens_sold amount)
  require (sold_plus ≤ p.total_tokens) .InsufficientTokens
  -- let price = amount.checked_mul(token_price).unwrap()
  let price ← unwrap (checked_mul amount p.token_price)
  -- SOL transfer: buyer -> project_vault, `price` lamports
  let (buyer', vault') ←
    system_transfer accs.buyer_lamports accs.project_vault_lamports price
  -- token transfer: token_vault -> buyer_token_account, `amount` tokens
  let (tvault', btok') ←
    spl_transfer accs.token_vault_tokens accs.buyer_token_tokens amount
  -- tokens_sold = tokens_sold.checked_add(amount).unwrap()
  let sold' ← unwrap (checked_add p.tokens_sold amount)
  return { project_info := { p with tokens_sold := sold' }
           buyer_lamports := buyer'
           project_vault_lamports := vault'
           token_vault_tokens := tvault'
           buyer_token_tokens := btok' }

/-- The transaction-level effect of a `purchase_tokens` call: the post-state
on success, the untouched pre-state on any abort (Solana rolls back every
effect of a failed transaction). -/
def purchase_step (now : Int) (amount : Nat) (accs : PurchaseAccounts) :
    PurchaseAccounts :=
  match purchase_tokens now amount accs with
  | .ok accs' => accs'
  | .error _ => accs

/-- The post-state a successful purchase produces, written out explicitly. -/
def purchase_post (amount : Nat) (accs : PurchaseAccounts) : PurchaseAccounts :=
  { project_info := { accs.project_info with
      tokens_sold := accs.project_info.tokens_sold + amount }
    buyer_lamports := accs.buyer_lamports - amount * accs.project_info.token_price
    project_vault_lamports :=
      accs.project_vault_lamports + amount * accs.project_info.token_price
    token_vault_tokens := accs.token_vault_tokens - amount
    buyer_token_tokens := accs.buyer_token_tokens + amount }

/-- The `ProjectInfo` states reachable by one successful `initialize_project`
followed by any sequence of `purchase_tokens` calls (successful or failed),
each call made against arbitrary balances and with arbitrary clock and
amount. -/
inductive ReachableProject : ProjectInfo → Prop where
  | created (accs : InitializeAccounts) (now start_time end_time : Int)
      (token_price total_tokens min_purchase max_purchase : Nat)
      (p : ProjectInfo)
      (h : initialize_project accs now start_time end_time token_price
            total_tokens min_purchase max_purchase = .ok p) :
      ReachableProject p
  | purchased (now : Int) (amount : Nat) (accs : PurchaseAccounts)
      (h : ReachableProject accs.project_info) :
      ReachableProject (purchase_step now amount accs).project_info

/-! ### Sample data

Concrete sales used to instantiate the universally quantified theorems. -/

/-- A small sample sale: window `[10, 20]`, price 3, supply 100, bounds
`[1, 50]`, nothing sold yet. -/
def sampleProject : ProjectInfo :=
  { admin := 1, token_mint := 2, start_time := 10, end_time := 20
    token_price := 3, total_tokens := 100, tokens_sold := 0
    min_purchase := 1, max_purchase := 50 }

/-- Balances for a purchase against `sampleProject`. -/
def sampleAccounts : PurchaseAccounts :=
  { project_info := sampleProject, buyer_lamports := 1000
    project_vault_lamports := 0, token_vault_tokens := 100
    buyer_token_tokens := 0 }

/-- A sale sitting at the `u64` boundary: supply `2^64 - 1`, fully sold out,
so one more token would overflow the `tokens_sold` counter. -/
def boundaryProject : ProjectInfo :=
  { admin := 1, token_mint := 2, start_time := 10, end_time := 20
    token_price := 1, total_tokens := 2 ^ 64 - 1, tokens_sold := 2 ^ 64 - 1
    min_purchase := 0, max_purchase := 1 }

/-- Balances for a purchase against `boundaryProject`. -/
def boundaryAccounts : PurchaseAccounts :=
  { project_info := boundaryProject, buyer_lamports := 1000
    project_vault_lamports := 0, token_vault_tokens := 100
    buyer_token_tokens := 0 }

/-- The supply-cap example of the spec (§8): supply 100, 90 already sold,
bounds `[10, 50]`. -/
def capProject : ProjectInfo :=
  { admin := 1, token_mint := 2, start_time := 10, end_time := 20
    token_price := 3, total_tokens := 100, tokens_sold := 90
    min_purchase := 10, max_purchase := 50 }

/-- Balances for a purchase against `capProject`. -/
def capAccounts : PurchaseAccounts :=
  { project_info := capProject, buyer_lamports := 1000
    project_vault_lamports := 0, token_vault_tokens := 100
    buyer_token_tokens := 0 }

/-- A sale whose price times a full-size purchase overflows `u64`:
price `2^32`, purchase bound `2^32`. -/
def priceOverflowProject : ProjectInfo :=
  { admin := 1, token_mint := 2, start_time := 10, end_time := 20
    token_price := 2 ^ 32, total_tokens := 2 ^ 64 - 1, tokens_sold := 0
    min_purchase := 0, max_purchase := 2 ^ 32 }

/-- Balances for a purchase against `priceOverflowProject`. -/
def priceOverflowAccounts : PurchaseAccounts :=
  { project_info := priceOverflowProject, buyer_lamports := 1000
    project_vault_lamports := 0, token_vault_tokens := 2 ^ 64 - 1
    buyer_token_tokens := 0 }

/-- `sampleProject` with no minimum-purchase requirement. -/
def zeroMinAccounts : PurchaseAccounts :=
  { sampleAccounts with project_info := { sampleProject with min_purchase := 0 } }

deriving instance DecidableEq for Except

/-! ### Characterization lemmas for the monadic building blocks -/

@[simp]
theorem except_bind_ok_iff {ε α β : Type} (x : Except ε α) (f : α → Except ε β)
    (b : β) : (x >>= f) = .ok b ↔ ∃ a, x = .ok a ∧ f a = .ok b := by
  cases x <;> simp [Bind.bind, Except.bind]

@[simp]
theorem except_bind_error_iff {ε α β : Type} (x : Except ε α) (f : α → Except ε β)
    (e : ε) : (x >>= f) = .error e ↔ x = .error e ∨ ∃ a, x = .ok a ∧ f a = .error e := by
  cases x <;> simp [Bind.bind, Except.bind]

@[simp]
theorem except_pure_eq_ok_iff {ε α : Type} (a b : α) :
    (pure a : Except ε α) = .ok b ↔ a = b := by
  simp [pure, Except.pure]

@[simp]
theorem except_pure_ne_error {ε α : Type} (a : α) (e : ε) :
    ¬ (pure a : Except ε α) = .error e := by
  simp [pure, Except.pure]

@[simp]
theorem require_eq_ok_iff (c : Prop) [Decidable c] (e : LaunchpadError) (u : Unit) :
    require c e = .ok u ↔ c := by
  simp only [require]
  split <;> simp_all

@[simp]
theorem require_eq_error_iff (c : Prop) [Decidable c] (e : LaunchpadError)
    (f : TxFailure) : require c e = .error f ↔ ¬ c ∧ f = .err e := by
  simp only [require]
  split <;> simp_all [eq_comm]

@[simp]
theorem unwrap_eq_ok_iff {α : Type} (o : Option α) (a : α) :
    unwrap o = .ok a ↔ o = some a := by
  cases o <;> simp [unwrap]

@[simp]
theorem unwrap_eq_error_iff {α : Type} (o : Option α) (f : TxFailure) :
    unwrap o = .error f ↔ o = none ∧ f = .overflowPanic := by
  cases o <;> simp_all [unwrap, eq_comm]

@[simp]
theorem checked_add_eq_some_iff (a b c : Nat) :
    checked_add a b = some c ↔ c = a + b ∧ a + b < U64_MOD := by
  simp only [checked_add]
  split <;> simp_all [eq_comm]

@[simp]
theorem checked_add_eq_none_iff (a b : Nat) :
    checked_add a b = none ↔ U64_MOD ≤ a + b := by
  simp only [checked_add]
  split <;> simp_all

@[simp]
theorem checked_mul_eq_some_iff (a b c : Nat) :
    checked_mul a b = some c ↔ c = a * b ∧ a * b < U64_MOD := by
  simp only [checked_mul]
  split <;> simp_all [eq_comm]

@[simp]
theorem checked_mul_eq_none_iff (a b : Nat) :
    checked_mul a b = none ↔ U64_MOD ≤ a * b := by
  simp only [checked_mul]
  split <;> simp_all

@[simp]
theorem system_transfer_eq_ok_iff (s d a : Nat) (pr : Nat × Nat) :
    system_transfer s d a = .ok pr ↔ pr = (s - a, d + a) ∧ a ≤ s := by
  simp only [system_transfer]
  split <;> simp_all [eq_comm]

@[simp]
theorem system_transfer_eq_error_iff (s d a : Nat) (f : TxFailure) :
    system_transfer s d a = .error f ↔ s < a ∧ f = .transferFailed := by
  simp only [system_transfer]
  split <;> simp_all [eq_comm]

@[simp]
theorem spl_transfer_eq_ok_iff (s d a : Nat) (pr : Nat × Nat) :
    spl_transfer s d a = .ok pr ↔ pr = (s - a, d + a) ∧ a ≤ s := by
  simp only [spl_transfer]
  split <;> simp_all [eq_comm]

@[simp]
theorem spl_transfer_eq_error_iff (s d a : Nat) (f : TxFailure) :
    spl_transfer s d a = .error f ↔ s < a ∧ f = .transferFailed := by
  simp only [spl_transfer]
  split <;> simp_all [eq_comm]


@[simp]
theorem except_map_eq_ok_iff {ε α β : Type} (f : α → β) (x : Except ε α) (b : β) :
    (f <$> x) = (.ok b : Except ε β) ↔ ∃ a, x = .ok a ∧ f a = b := by
  cases x <;> simp [Functor.map, Except.map]

@[simp]
theorem except_map_eq_error_iff {ε α β : Type} (f : α → β) (x : Except ε α) (e : ε) :
    (f <$> x) = (.error e : Except ε β) ↔ x = .error e := by
  cases x <;> simp [Functor.map, Except.map]

theorem purchase_tokens_ok_iff (now : Int) (amount : Nat)
    (accs accs' : PurchaseAccounts) :
    purchase_tokens now amount accs = .ok accs' ↔
      ((accs.project_info.start_time ≤ now ∧ now ≤ accs.project_info.end_time) ∧
       accs.project_info.min_purchase ≤ amount ∧
       amount ≤ accs.project_info.max_purchase ∧
       accs.project_info.tokens_sold + amount < U64_MOD ∧
       accs.project_info.tokens_sold + amount ≤ accs.project_info.total_tokens ∧
       amount * accs.project_info.token_price < U64_MOD ∧
       amount * accs.project_info.token_price ≤ accs.buyer_lamports ∧
       amount ≤ accs.token_vault_tokens) ∧
      accs' = purchase_post amount accs := by
  simp [purchase_tokens, and_assoc, purchase_post]
  intro _ _ _ _ h5 _ _ _ _
  exact ⟨fun h => h.2.symm, fun h => ⟨h5, h.symm⟩⟩

theorem purchase_tokens_sale_inactive_iff (now : Int) (amount : Nat)
    (accs : PurchaseAccounts) :
    purchase_tokens now amount accs = .error (.err .SaleInactive) ↔
      now < accs.project_info.start_time ∨ accs.project_info.end_time < now := by
  simp [purchase_tokens, and_assoc]
  omega

theorem purchase_tokens_below_min_iff (now : Int) (amount : Nat)
    (accs : PurchaseAccounts) :
    purchase_tokens now amount accs = .error (.err .BelowMinimum) ↔
      (accs.project_info.start_time ≤ now ∧ now ≤ accs.project_info.end_time) ∧
      amount < accs.project_info.min_purchase := by
  simp [purchase_tokens, and_assoc]

theorem purchase_tokens_above_max_iff (now : Int) (amount : Nat)
    (accs : PurchaseAccounts) :
    purchase_tokens now amount accs = .error (.err .AboveMaximum) ↔
      (accs.project_info.start_time ≤ now ∧ now ≤ accs.project_info.end_time) ∧
      accs.project_info.min_purchase ≤ amount ∧
      accs.project_info.max_purchase < amount := by
  simp [purchase_tokens, and_assoc]

theorem purchase_tokens_insufficient_iff (now : Int) (amount : Nat)
    (accs : PurchaseAccounts) :
    purchase_tokens now amount accs = .error (.err .InsufficientTokens) ↔
      (accs.project_info.start_time ≤ now ∧ now ≤ accs.project_info.end_time) ∧
      accs.project_info.min_purchase ≤ amount ∧
      amount ≤ accs.project_info.max_purchase ∧
      accs.project_info.tokens_sold + amount < U64_MOD ∧
      accs.project_info.total_tokens < accs.project_info.tokens_sold + amount := by
  simp [purchase_tokens, and_assoc]

theorem purchase_tokens_overflow_iff (now : Int) (amount : Nat)
    (accs : PurchaseAccounts) :
    purchase_tokens now amount accs = .error .overflowPanic ↔
      (accs.project_info.start_time ≤ now ∧ now ≤ accs.project_info.end_time) ∧
      accs.project_info.min_purchase ≤ amount ∧
      amount ≤ accs.project_info.max_purchase ∧
      (U64_MOD ≤ accs.project_info.tokens_sold + amount ∨
        (accs.project_info.tokens_sold + amount ≤ accs.project_info.total_tokens ∧
         U64_MOD ≤ amount * accs.project_info.token_price)) := by
  simp [purchase_tokens, and_assoc]
  omega



theorem initialize_project_ok_iff (accs : InitializeAccounts) (now st et : Int)
    (tp tt mn mx : Nat) (p : ProjectInfo) :
    initialize_project accs now st et tp tt mn mx = .ok p ↔
      st < et ∧ now < st ∧
      p = { admin := accs.admin, token_mint := accs.token_mint
            start_time := st, end_time := et, token_price := tp
            total_tokens := tt, tokens_sold := 0
            min_purchase := mn, max_purchase := mx } := by
  simp only [initialize_project]
  split
  · rename_i h
    simp only [not_lt] at h
    constructor
    · intro hc; exact absurd hc (by simp)
    · rintro ⟨h1, -, -⟩; omega
  · split
    · rename_i h1 h2
      simp only [not_lt] at h2
      constructor
      · intro hc; exact absurd hc (by simp)
      · rintro ⟨-, h3, -⟩; omega
    · rename_i h1 h2
      simp only [not_not] at h1 h2
      simp only [Except.ok.injEq]
      constructor
      · intro hc; exact ⟨by omega, by omega, hc.symm⟩
      · rintro ⟨-, -, rfl⟩; rfl

theorem initialize_invalid_time_range_iff (accs : InitializeAccounts)
    (now st et : Int) (tp tt mn mx : Nat) :
    initialize_project accs now st et tp tt mn mx = .error (.err .InvalidTimeRange) ↔
      et ≤ st := by
  simp only [initialize_project]
  split
  · rename_i h; simp only [not_lt] at h; simp [h]
  · split
    · rename_i h1 h2
      simp only [not_not] at h1
      constructor
      · intro hc
        injection hc with hc
        exact absurd hc (by decide)
      · intro hc; omega
    · rename_i h1 h2
      simp only [not_not] at h1
      constructor
      · intro hc; exact absurd hc (by simp)
      · intro hc; omega

theorem initialize_invalid_start_iff (accs : InitializeAccounts)
    (now st et : Int) (tp tt mn mx : Nat) (h : st < et) :
    initialize_project accs now st et tp tt mn mx = .error (.err .InvalidStartTime) ↔
      st ≤ now := by
  simp only [initialize_project]
  split
  · rename_i h1; exact absurd h h1
  · split
    · rename_i h1 h2
      simp only [not_lt] at h2
      simp [h2]
    · rename_i h1 h2
      simp only [not_not] at h2
      constructor
      · intro hc; exact absurd hc (by simp)
      · intro hc; omega


/-! ### The claims -/


/-- Claim C1: supply-cap invariant.  Every project state reachable by one
`initialize_project` followed by any sequence of `purchase_tokens` calls
(successful or failed) satisfies `0 ≤ tokens_sold ≤ total_tokens`; moreover a
successful purchase of `amount` is only possible when
`tokens_sold + amount ≤ total_tokens`, so the post-state still satisfies the
bound. -/
theorem supply_cap_invariant :
    (∀ p : ProjectInfo, ReachableProject p →
      0 ≤ p.tokens_sold ∧ p.tokens_sold ≤ p.total_tokens) ∧
    (∀ (now : Int) (amount : Nat) (accs accs' : PurchaseAccounts),
      purchase_tokens now amount accs = .ok accs' →
      accs.project_info.tokens_sold + amount ≤ accs.project_info.total_tokens ∧
      accs'.project_info.tokens_sold ≤ accs'.project_info.total_tokens) := by
  have hok : ∀ (now : Int) (amount : Nat) (accs accs' : PurchaseAccounts),
      purchase_tokens now amount accs = .ok accs' →
      accs.project_info.tokens_sold + amount ≤ accs.project_info.total_tokens ∧
      accs'.project_info.tokens_sold ≤ accs'.project_info.total_tokens := by
    intro now amount accs accs' h
    obtain ⟨⟨-, -, -, -, hcap, -, -, -⟩, rfl⟩ :=
      (purchase_tokens_ok_iff now amount accs accs').mp h
    exact ⟨hcap, by simpa [purchase_post] using hcap⟩
  refine ⟨?_, hok⟩
  intro p hp
  induction hp with
  | created accs now st et tp tt mn mx p h =>
    obtain ⟨-, -, rfl⟩ := (initialize_project_ok_iff accs now st et tp tt mn mx p).mp h
    exact ⟨Nat.zero_le _, Nat.zero_le _⟩
  | purchased now amount accs h ih =>
    unfold purchase_step
    split
    · rename_i accs' heq
      exact ⟨Nat.zero_le _, (hok now amount accs accs' heq).2⟩
    · exact ih

/-- Witness for C1: the sample project is reachable (as freshly created) and
satisfies the bound, and a concrete successful purchase of 10 tokens
satisfies the cap. -/
theorem supply_cap_invariant_witness :
    (sampleProject.tokens_sold ≤ sampleProject.total_tokens) ∧
    sampleAccounts.project_info.tokens_sold + 10 ≤
      sampleAccounts.project_info.total_tokens :=
  ⟨(supply_cap_invariant.1 sampleProject
      (ReachableProject.created ⟨1, 2⟩ 0 10 20 3 100 1 50 sampleProject rfl)).2,
   (supply_cap_invariant.2 15 10 sampleAccounts (purchase_post 10 sampleAccounts)
      rfl).1⟩


/-- Claim C2: all-or-nothing purchase.  On success the payment transfer of
`amount * token_price` lamports and the token transfer of `amount` tokens
have both occurred and `tokens_sold` grew by exactly `amount`; on any failure
the transaction leaves every account exactly as before. -/
theorem purchase_all_or_nothing (now : Int) (amount : Nat)
    (accs : PurchaseAccounts) :
    (∀ accs', purchase_tokens now amount accs = .ok accs' →
      accs'.buyer_lamports + amount * accs.project_info.token_price
          = accs.buyer_lamports ∧
      accs'.project_vault_lamports
          = accs.project_vault_lamports + amount * accs.project_info.token_price ∧
      accs'.token_vault_tokens + amount = accs.token_vault_tokens ∧
      accs'.buyer_token_tokens = accs.buyer_token_tokens + amount ∧
      accs'.project_info.tokens_sold = accs.project_info.tokens_sold + amount) ∧
    (∀ e, purchase_tokens now amount accs = .error e →
      purchase_step now amount accs = accs) := by
  constructor
  · intro accs' h
    obtain ⟨⟨-, -, -, -, -, -, hpay, htok⟩, rfl⟩ :=
      (purchase_tokens_ok_iff now amount accs accs').mp h
    refine ⟨?_, rfl, ?_, rfl, rfl⟩ <;> simp [purchase_post] <;> omega
  · intro e h
    simp [purchase_step, h]

/-- Witness for C2: a concrete successful purchase of 10 tokens moves exactly
30 lamports and 10 tokens, and a concrete out-of-window call leaves the
accounts untouched. -/
theorem purchase_all_or_nothing_witness :
    (purchase_post 10 sampleAccounts).project_info.tokens_sold
        = sampleAccounts.project_info.tokens_sold + 10 ∧
    purchase_step 5 10 sampleAccounts = sampleAccounts :=
  ⟨((purchase_all_or_nothing 15 10 sampleAccounts).1
      (purchase_post 10 sampleAccounts) rfl).2.2.2.2,
   (purchase_all_or_nothing 5 10 sampleAccounts).2 (.err .SaleInactive) rfl⟩

/-- Claim C4: creation-time validation.  `initialize_project` fails with
`InvalidTimeRange` iff `end_time ≤ start_time`; when the time-range check
passes it fails with `InvalidStartTime` iff `start_time ≤ now`; on either
failure no project state is produced. -/
theorem initialize_validation (accs : InitializeAccounts) (now st et : Int)
    (tp tt mn mx : Nat) :
    (initialize_project accs now st et tp tt mn mx
        = .error (.err .InvalidTimeRange) ↔ et ≤ st) ∧
    (st < et →
      (initialize_project accs now st et tp tt mn mx
          = .error (.err .InvalidStartTime) ↔ st ≤ now)) ∧
    ((et ≤ st ∨ st ≤ now) →
      ∀ p, initialize_project accs now st et tp tt mn mx ≠ .ok p) := by
  refine ⟨initialize_invalid_time_range_iff accs now st et tp tt mn mx,
    fun h => initialize_invalid_start_iff accs now st et tp tt mn mx h, ?_⟩
  intro hbad p hok
  obtain ⟨h1, h2, -⟩ := (initialize_project_ok_iff accs now st et tp tt mn mx p).mp hok
  omega

/-- Witness for C4: concrete calls showing both failure modes and that a
reversed window is rejected. -/
theorem initialize_validation_witness :
    (initialize_project ⟨1, 2⟩ 0 20 10 3 100 1 50
        = .error (.err .InvalidTimeRange)) ∧
    (initialize_project ⟨1, 2⟩ 15 10 20 3 100 1 50
        = .error (.err .InvalidStartTime)) ∧
    initialize_project ⟨1, 2⟩ 0 20 10 3 100 1 50 ≠ .ok sampleProject :=
  ⟨(initialize_validation ⟨1, 2⟩ 0 20 10 3 100 1 50).1.mpr (by decide),
   ((initialize_validation ⟨1, 2⟩ 15 10 20 3 100 1 50).2.1 (by decide)).mpr (by decide),
   (initialize_validation ⟨1, 2⟩ 0 20 10 3 100 1 50).2.2 (Or.inl (by decide))
     sampleProject⟩

/-- Claim C5: creation postcondition.  A successful `initialize_project`
yields a project with `tokens_sold = 0`, `admin` bound to the signer of the
call (not an instruction argument), and every other field copied verbatim
from the inputs. -/
theorem initialize_postcondition (accs : InitializeAccounts) (now st et : Int)
    (tp tt mn mx : Nat) (p : ProjectInfo)
    (h : initialize_project accs now st et tp tt mn mx = .ok p) :
    p.tokens_sold = 0 ∧ p.admin = accs.admin ∧ p.token_mint = accs.token_mint ∧
    p.start_time = st ∧ p.end_time = et ∧ p.token_price = tp ∧
    p.total_tokens = tt ∧ p.min_purchase = mn ∧ p.max_purchase = mx := by
  obtain ⟨-, -, rfl⟩ := (initialize_project_ok_iff accs now st et tp tt mn mx p).mp h
  exact ⟨rfl, rfl, rfl, rfl, rfl, rfl, rfl, rfl, rfl⟩

/-- Witness for C5: a concrete valid creation produces exactly
`sampleProject`. -/
theorem initialize_postcondition_witness :
    sampleProject.tokens_sold = 0 ∧ sampleProject.admin = 1 ∧
    sampleProject.start_time = 10 :=
  ⟨(initialize_postcondition ⟨1, 2⟩ 0 10 20 3 100 1 50 sampleProject rfl).1,
   (initialize_postcondition ⟨1, 2⟩ 0 10 20 3 100 1 50 sampleProject rfl).2.1,
   (initialize_postcondition ⟨1, 2⟩ 0 10 20 3 100 1 50 sampleProject rfl).2.2.2.1⟩


/-- Counterexample for C3 as stated: at a fully sold-out sale of `2^64 - 1`
tokens, a purchase of 1 more token passes the window, minimum and maximum
checks and exceeds the remaining supply (`tokens_sold + amount >
total_tokens`), yet the call does not fail with `InsufficientTokens` — the
checked addition overflows first and the `.unwrap()` panic aborts the call
with a fatal arithmetic error. -/
theorem purchase_validation_counterexample :
    ((boundaryAccounts.project_info.start_time ≤ (15 : Int) ∧
      (15 : Int) ≤ boundaryAccounts.project_info.end_time) ∧
     boundaryAccounts.project_info.min_purchase ≤ 1 ∧
     1 ≤ boundaryAccounts.project_info.max_purchase ∧
     boundaryAccounts.project_info.total_tokens <
       boundaryAccounts.project_info.tokens_sold + 1) ∧
    purchase_tokens 15 1 boundaryAccounts ≠ .error (.err .InsufficientTokens) ∧
    purchase_tokens 15 1 boundaryAccounts = .error .overflowPanic :=
  ⟨by decide, by decide, by decide⟩

/-- Claim C3 (amended): the checks run in the fixed order window, minimum,
maximum, supply cap; the first failing check determines the error and the
rejection errors are mutually exclusive.  `SaleInactive` iff `now` is outside
the window; given the window, `BelowMinimum` iff `amount < min_purchase`;
given also the minimum, `AboveMaximum` iff `amount > max_purchase`; given all
prior checks and that `tokens_sold + amount` does not overflow `u64`,
`InsufficientTokens` iff `tokens_sold + amount > total_tokens` (on overflow
the call aborts with the fatal arithmetic error instead). -/
theorem purchase_validation_order_amended (now : Int) (amount : Nat)
    (accs : PurchaseAccounts) :
    (purchase_tokens now amount accs = .error (.err .SaleInactive) ↔
      now < accs.project_info.start_time ∨ accs.project_info.end_time < now) ∧
    ((accs.project_info.start_time ≤ now ∧ now ≤ accs.project_info.end_time) →
      (purchase_tokens now amount accs = .error (.err .BelowMinimum) ↔
        amount < accs.project_info.min_purchase)) ∧
    ((accs.project_info.start_time ≤ now ∧ now ≤ accs.project_info.end_time) →
      accs.project_info.min_purchase ≤ amount →
      (purchase_tokens now amount accs = .error (.err .AboveMaximum) ↔
        accs.project_info.max_purchase < amount)) ∧
    ((accs.project_info.start_time ≤ now ∧ now ≤ accs.project_info.end_time) →
      accs.project_info.min_purchase ≤ amount →
      amount ≤ accs.project_info.max_purchase →
      accs.project_info.tokens_sold + amount < U64_MOD →
      (purchase_tokens now amount accs = .error (.err .InsufficientTokens) ↔
        accs.project_info.total_tokens < accs.project_info.tokens_sold + amount)) := by
  refine ⟨purchase_tokens_sale_inactive_iff now amount accs, ?_, ?_, ?_⟩
  · intro hwin
    rw [purchase_tokens_below_min_iff]
    exact ⟨fun h => h.2, fun h => ⟨hwin, h⟩⟩
  · intro hwin hmin
    rw [purchase_tokens_above_max_iff]
    exact ⟨fun h => h.2.2, fun h => ⟨hwin, hmin, h⟩⟩
  · intro hwin hmin hmax hadd
    rw [purchase_tokens_insufficient_iff]
    exact ⟨fun h => h.2.2.2.2, fun h => ⟨hwin, hmin, hmax, hadd, h⟩⟩

/-- Witness for the amended C3: the spec's own supply-cap example — supply
100, 90 sold, a request for 20 fails `InsufficientTokens`. -/
theorem purchase_validation_order_amended_witness :
    purchase_tokens 15 20 capAccounts = .error (.err .InsufficientTokens) :=
  ((purchase_validation_order_amended 15 20 capAccounts).2.2.2
    (by decide) (by decide) (by decide) (by decide)).mpr (by decide)

/-- Claim C6: overflow-checked supply counter.  Once the window, minimum and
maximum checks pass, a `tokens_sold + amount` that exceeds the `u64` range
aborts with the fatal overflow panic — an error distinct from
`InsufficientTokens` — before the supply-cap comparison is evaluated (the
conclusion holds with no hypothesis on `total_tokens`), and the state is
rolled back; no wrapped value of `tokens_sold` is ever produced. -/
theorem purchase_supply_overflow_fatal (now : Int) (amount : Nat)
    (accs : PurchaseAccounts)
    (hwin : accs.project_info.start_time ≤ now ∧ now ≤ accs.project_info.end_time)
    (hmin : accs.project_info.min_purchase ≤ amount)
    (hmax : amount ≤ accs.project_info.max_purchase)
    (hov : U64_MOD ≤ accs.project_info.tokens_sold + amount) :
    purchase_tokens now amount accs = .error .overflowPanic ∧
    TxFailure.overflowPanic ≠ TxFailure.err .InsufficientTokens ∧
    purchase_tokens now amount accs ≠ .error (.err .InsufficientTokens) ∧
    purchase_step now amount accs = accs := by
  have h := (purchase_tokens_overflow_iff now amount accs).mpr
    ⟨hwin, hmin, hmax, Or.inl hov⟩
  refine ⟨h, by decide, ?_, by simp [purchase_step, h]⟩
  rw [h]
  simp

/-- Witness for C6: the boundary sale aborts with the overflow panic on a
1-token purchase, with no state change. -/
theorem purchase_supply_overflow_fatal_witness :
    purchase_tokens 15 1 boundaryAccounts = .error .overflowPanic ∧
    purchase_step 15 1 boundaryAccounts = boundaryAccounts :=
  ⟨(purchase_supply_overflow_fatal 15 1 boundaryAccounts
      (by decide) (by decide) (by decide) (by decide)).1,
   (purchase_supply_overflow_fatal 15 1 boundaryAccounts
      (by decide) (by decide) (by decide) (by decide)).2.2.2⟩

/-- Claim C7: overflow-checked pricing.  After all four validation checks
pass, a payment product `amount * token_price` outside the `u64` range aborts
the call fatally with no state change and no transfer; on success the vault
receives and the buyer pays exactly the mathematical product. -/
theorem purchase_price_overflow_checked (now : Int) (amount : Nat)
    (accs : PurchaseAccounts)
    (hwin : accs.project_info.start_time ≤ now ∧ now ≤ accs.project_info.end_time)
    (hmin : accs.project_info.min_purchase ≤ amount)
    (hmax : amount ≤ accs.project_info.max_purchase)
    (hadd : accs.project_info.tokens_sold + amount < U64_MOD)
    (hcap : accs.project_info.tokens_sold + amount ≤ accs.project_info.total_tokens) :
    (U64_MOD ≤ amount * accs.project_info.token_price →
      purchase_tokens now amount accs = .error .overflowPanic ∧
      purchase_step now amount accs = accs) ∧
    (∀ accs', purchase_tokens now amount accs = .ok accs' →
      amount * accs.project_info.token_price < U64_MOD ∧
      accs'.project_vault_lamports
          = accs.project_vault_lamports + amount * accs.project_info.token_price ∧
      accs'.buyer_lamports + amount * accs.project_info.token_price
          = accs.buyer_lamports) := by
  constructor
  · intro hmul
    have h := (purchase_tokens_overflow_iff now amount accs).mpr
      ⟨hwin, hmin, hmax, Or.inr ⟨hcap, hmul⟩⟩
    exact ⟨h, by simp [purchase_step, h]⟩
  · intro accs' h
    obtain ⟨⟨-, -, -, -, -, hmul, hpay, -⟩, rfl⟩ :=
      (purchase_tokens_ok_iff now amount accs accs').mp h
    exact ⟨hmul, rfl, by simp [purchase_post]; omega⟩

/-- Witness for C7: a sale priced at `2^32` lamports per token aborts with
the fatal overflow on a `2^32`-token purchase. -/
theorem purchase_price_overflow_checked_witness :
    purchase_tokens 15 (2 ^ 32) priceOverflowAccounts = .error .overflowPanic :=
  ((purchase_price_overflow_checked 15 (2 ^ 32) priceOverflowAccounts
      (by decide) (by decide) (by decide) (by decide) (by decide)).1 (by decide)).1

/-- Claim C8: frame property.  A `purchase_tokens` call — succeeding or
failing — never changes `admin`, `token_mint`, `start_time`, `end_time`,
`token_price`, `total_tokens`, `min_purchase` or `max_purchase`;
`tokens_sold` is the only project field it may mutate. -/
theorem purchase_frame_property (now : Int) (amount : Nat)
    (accs : PurchaseAccounts) :
    (purchase_step now amount accs).project_info.admin = accs.project_info.admin ∧
    (purchase_step now amount accs).project_info.token_mint
        = accs.project_info.token_mint ∧
    (purchase_step now amount accs).project_info.start_time
        = accs.project_info.start_time ∧
    (purchase_step now amount accs).project_info.end_time
        = accs.project_info.end_time ∧
    (purchase_step now amount accs).project_info.token_price
        = accs.project_info.token_price ∧
    (purchase_step now amount accs).project_info.total_tokens
        = accs.project_info.total_tokens ∧
    (purchase_step now amount accs).project_info.min_purchase
        = accs.project_info.min_purchase ∧
    (purchase_step now amount accs).project_info.max_purchase
        = accs.project_info.max_purchase := by
  unfold purchase_step
  split
  · rename_i accs' heq
    obtain ⟨-, rfl⟩ := (purchase_tokens_ok_iff now amount accs accs').mp heq
    simp [purchase_post]
  · exact ⟨rfl, rfl, rfl, rfl, rfl, rfl, rfl, rfl⟩

/-- A zero-amount purchase leaves the whole account state literally equal. -/
theorem purchase_post_zero (accs : PurchaseAccounts) :
    purchase_post 0 accs = accs := by
  rcases accs with ⟨⟨a, m, s, e, tp, tt, ts, mn, mx⟩, bl, vl, tv, bt⟩
  simp [purchase_post]

/-- Claim C10: zero-amount purchase edge case.  With `min_purchase = 0`, a
purchase of 0 tokens inside the window of a project with
`tokens_sold ≤ total_tokens` passes all four checks, computes payment 0,
invokes both transfers with amount 0 (which move nothing), succeeds, and
leaves the state — in particular `tokens_sold` — unchanged. -/
theorem purchase_zero_amount (now : Int) (accs : PurchaseAccounts)
    (hmin0 : accs.project_info.min_purchase = 0)
    (hs : accs.project_info.start_time ≤ now)
    (he : now ≤ accs.project_info.end_time)
    (hsold : accs.project_info.tokens_sold ≤ accs.project_info.total_tokens)
    (htot : accs.project_info.total_tokens < U64_MOD) :
    checked_mul 0 accs.project_info.token_price = some 0 ∧
    system_transfer accs.buyer_lamports accs.project_vault_lamports 0
        = .ok (accs.buyer_lamports, accs.project_vault_lamports) ∧
    spl_transfer accs.token_vault_tokens accs.buyer_token_tokens 0
        = .ok (accs.token_vault_tokens, accs.buyer_token_tokens) ∧
    purchase_tokens now 0 accs = .ok accs := by
  refine ⟨by simp [checked_mul, U64_MOD], by simp [system_transfer],
    by simp [spl_transfer], ?_⟩
  rw [purchase_tokens_ok_iff]
  refine ⟨⟨⟨hs, he⟩, by omega, Nat.zero_le _, by omega, by omega,
    by simp [U64_MOD], by simp, Nat.zero_le _⟩, (purchase_post_zero accs).symm⟩

/-- Witness for C10: a concrete zero-amount purchase against the sample sale
with no minimum succeeds and returns the state unchanged. -/
theorem purchase_zero_amount_witness :
    purchase_tokens 15 0 zeroMinAccounts = .ok zeroMinAccounts :=
  (purchase_zero_amount 15 zeroMinAccounts (by decide) (by decide) (by decide)
    (by decide) (by decide)).2.2.2


end Launchpad
